import Mathlib

/-!
Verification of `backend/access.py`: access key validation for chat endpoints.

The module resolves a configuration path from the `CHAT_ACCESS_KEY_PATH`
environment variable (defaulting to `access_key.json`), lazily loads a JSON
configuration file whose `access_key` field holds the secret, caches the
secret via `functools.lru_cache(maxsize=1)` (which memoizes successful
returns only, never raised exceptions), and validates a caller-supplied key
against the cached secret, raising `HTTPException` with status 403 for
client-side failures and 500 for configuration failures.

The embedding makes the implicit state explicit:
  * the process environment is an `Option String` (value of
    `CHAT_ACCESS_KEY_PATH`, `none` when unset);
  * the filesystem is an association list from path strings to the observable
    outcome of the `exists` / `read_text` / `json.loads` sequence the code
    performs on that path;
  * the `lru_cache` cell is an `Option JsonValue` threaded through calls;
  * raised exceptions become the error side of `Except`.
-/

/-- JSON values as produced by `json.loads`. Numbers are abstracted as
integers, which covers every configuration value relevant here. -/
inductive JsonValue : Type
  | null : JsonValue
  | bool : Bool → JsonValue
  | num : Int → JsonValue
  | str : String → JsonValue
  | arr : List JsonValue → JsonValue
  | obj : List (String × JsonValue) → JsonValue

mutual

/-- Decidable equality on JSON values (the derive handler does not support
this nested inductive, so it is spelled out). -/
def JsonValue.decEq : (a b : JsonValue) → Decidable (a = b)
  | .null, .null => isTrue rfl
  | .bool a, .bool b =>
      if h : a = b then isTrue (by rw [h])
      else isFalse (by intro hh; cases hh; exact h rfl)
  | .num a, .num b =>
      if h : a = b then isTrue (by rw [h])
      else isFalse (by intro hh; cases hh; exact h rfl)
  | .str a, .str b =>
      if h : a = b then isTrue (by rw [h])
      else isFalse (by intro hh; cases hh; exact h rfl)
  | .arr xs, .arr ys =>
      match JsonValue.decEqList xs ys with
      | isTrue h => isTrue (by rw [h])
      | isFalse h => isFalse (by intro hh; cases hh; exact h rfl)
  | .obj xs, .obj ys =>
      match JsonValue.decEqKvs xs ys with
      | isTrue h => isTrue (by rw [h])
      | isFalse h => isFalse (by intro hh; cases hh; exact h rfl)
  | .null, .bool _ | .null, .num _ | .null, .str _ | .null, .arr _
  | .null, .obj _ | .bool _, .null | .bool _, .num _ | .bool _, .str _
  | .bool _, .arr _ | .bool _, .obj _ | .num _, .null | .num _, .bool _
  | .num _, .str _ | .num _, .arr _ | .num _, .obj _ | .str _, .null
  | .str _, .bool _ | .str _, .num _ | .str _, .arr _ | .str _, .obj _
  | .arr _, .null | .arr _, .bool _ | .arr _, .num _ | .arr _, .str _
  | .arr _, .obj _ | .obj _, .null | .obj _, .bool _ | .obj _, .num _
  | .obj _, .str _ | .obj _, .arr _ => isFalse (by intro hh; cases hh)

/-- Decidable equality on lists of JSON values. -/
def JsonValue.decEqList : (xs ys : List JsonValue) → Decidable (xs = ys)
  | [], [] => isTrue rfl
  | [], _ :: _ => isFalse (by intro hh; cases hh)
  | _ :: _, [] => isFalse (by intro hh; cases hh)
  | x :: xs, y :: ys =>
      match JsonValue.decEq x y with
      | isFalse h => isFalse (by intro hh; cases hh; exact h rfl)
      | isTrue h1 =>
          match JsonValue.decEqList xs ys with
          | isTrue h2 => isTrue (by rw [h1, h2])
          | isFalse h2 => isFalse (by intro hh; cases hh; exact h2 rfl)

/-- Decidable equality on JSON object field lists. -/
def JsonValue.decEqKvs : (xs ys : List (String × JsonValue)) → Decidable (xs = ys)
  | [], [] => isTrue rfl
  | [], _ :: _ => isFalse (by intro hh; cases hh)
  | _ :: _, [] => isFalse (by intro hh; cases hh)
  | (k1, v1) :: xs, (k2, v2) :: ys =>
      if hk : k1 = k2 then
          match JsonValue.decEq v1 v2 with
          | isFalse h => isFalse (by intro hh; cases hh; exact h rfl)
          | isTrue hv =>
              match JsonValue.decEqKvs xs ys with
              | isTrue h2 => isTrue (by rw [hk, hv, h2])
              | isFalse h2 => isFalse (by intro hh; cases hh; exact h2 rfl)
      else isFalse (by intro hh; cases hh; exact hk rfl)

end

instance : DecidableEq JsonValue := JsonValue.decEq

/-- Decidable equality on `Except`, so concrete runs can be checked by
`decide`. -/
def Except.decEq {ε α : Type} [DecidableEq ε] [DecidableEq α] :
    (a b : Except ε α) → Decidable (a = b)
  | .ok a, .ok b =>
      if h : a = b then isTrue (by rw [h])
      else isFalse (by intro hh; cases hh; exact h rfl)
  | .error a, .error b =>
      if h : a = b then isTrue (by rw [h])
      else isFalse (by intro hh; cases hh; exact h rfl)
  | .ok _, .error _ => isFalse (by intro hh; cases hh)
  | .error _, .ok _ => isFalse (by intro hh; cases hh)

instance {ε α : Type} [DecidableEq ε] [DecidableEq α] : DecidableEq (Except ε α) :=
  Except.decEq

/-- Python truthiness (`if not key:`) on a JSON-loaded value: `None`,
`False`, `0`, `""`, `[]` and `{}` are falsy, everything else is truthy. -/
def JsonValue.truthy : JsonValue → Bool
  | .null => false
  | .bool b => b
  | .num n => n != 0
  | .str s => !s.isEmpty
  | .arr xs => !xs.isEmpty
  | .obj kvs => !kvs.isEmpty

/-- Whether a JSON value is a string. -/
def JsonValue.isStr : JsonValue → Bool
  | .str _ => true
  | _ => false

/-- Whether a JSON value is an object. -/
def JsonValue.isObj : JsonValue → Bool
  | .obj _ => true
  | _ => false

/-- Python equality `provided_key == expected` between a `str` and a
JSON-loaded value: a Python string is equal only to an equal string, never
to `None`, a bool, a number, a list or a dict. -/
def pyStrEq (s : String) : JsonValue → Bool
  | .str t => s == t
  | _ => false

/-- Errors raised by the module: `http c d` is `HTTPException(status_code = c,
detail = d)`; `unclassified exc` is any other Python exception escaping the
code, named by its Python class, which the module neither constructs nor
catches. -/
inductive PyError : Type
  | http : Nat → String → PyError
  | unclassified : String → PyError
  deriving DecidableEq

/-- The observable outcome, for one path, of the sequence the loader runs:
`path.exists()`, then `path.read_text()`, then `json.loads`.
  * `absent`: `path.exists()` is false.
  * `readFailure exc`: the path exists but `read_text` raises `exc`
    (a directory, unreadable permissions, non-UTF-8 bytes, ...).
  * `notJson`: `read_text` succeeds but `json.loads` raises
    `json.JSONDecodeError`.
  * `json v`: reading and parsing succeed with value `v`. -/
inductive ReadResult : Type
  | absent : ReadResult
  | readFailure : String → ReadResult
  | notJson : ReadResult
  | json : JsonValue → ReadResult
  deriving DecidableEq

/-- File states whose outcome the loader's error branches fully classify:
the path is absent, or its contents fail JSON parsing, or they parse to a
JSON object. Excluded are a failing read and a non-object JSON value,
whose exceptions escape unclassified. -/
def ReadResult.covered : ReadResult → Bool
  | .absent => true
  | .notJson => true
  | .json v => v.isObj
  | .readFailure _ => false

/-- The ambient state a single load observes: the `CHAT_ACCESS_KEY_PATH`
environment variable and the filesystem, keyed by path string; paths not
listed are absent. -/
structure World : Type where
  env : Option String
  fs : List (String × ReadResult)
  deriving DecidableEq

/-- Filesystem lookup: the read outcome at path `p`, `absent` when the
filesystem has no entry for `p`. -/
def World.read (w : World) (p : String) : ReadResult :=
  match w.fs.lookup p with
  | some r => r
  | none => ReadResult.absent

/-- Embedding of `_get_access_key_path`: return the value of
`CHAT_ACCESS_KEY_PATH` when it is set and non-empty (Python truthiness of a
string), otherwise the fixed default `access_key.json`. A pure function of
the environment: it takes no filesystem and performs no existence check. -/
def get_access_key_path (env : Option String) : String :=
  match env with
  | some p => if p.isEmpty then "access_key.json" else p
  | none => "access_key.json"

/-- Embedding of the body of `_load_access_key` (the function `lru_cache`
wraps): resolve the path, fail 500 if it does not exist, read and parse it
(a read failure escapes unclassified; a `JSONDecodeError` becomes a 500),
call `.get("access_key")` on the parsed value (an `AttributeError` escapes
unclassified when the value is not a dict; a missing field yields `None`,
spelled `getD JsonValue.null`), fail 500 if the field is falsy, else
return it. -/
def load_access_key_uncached (w : World) : Except PyError JsonValue :=
  let path := get_access_key_path w.env
  match w.read path with
  | .absent =>
      .error (.http 500 "Access key file not found on the server.")
  | .readFailure exc =>
      .error (.unclassified exc)
  | .notJson =>
      .error (.http 500 "Invalid access key JSON configuration.")
  | .json data =>
      match data with
      | .obj kvs =>
          let key := (kvs.lookup "access_key").getD JsonValue.null
          if key.truthy then .ok key
          else .error (.http 500 "Access key missing in configuration.")
      | _ => .error (.unclassified "AttributeError")

/-- Embedding of `_load_access_key` as seen by callers, with the
`lru_cache(maxsize=1)` cell made explicit: a populated cache is returned
as is without touching environment or filesystem; an empty cache runs the
body, and only a successful return populates the cache (raised exceptions
are not memoized by `lru_cache`). Returns the call result and the cache
cell after the call. -/
def load_access_key (cache : Option JsonValue) (w : World) :
    Except PyError JsonValue × Option JsonValue :=
  match cache with
  | some v => (.ok v, some v)
  | none =>
      match load_access_key_uncached w with
      | .ok v => (.ok v, some v)
      | .error e => (.error e, none)

/-- Embedding of `validate_access_key`: a falsy provided key (`None` or the
empty string) fails 403 before any load; otherwise the secret is loaded
(errors propagate unchanged) and compared with Python `!=`; a mismatch
fails 403. Success returns `()` and no other value. The cache cell is
threaded in and out. -/
def validate_access_key (provided_key : Option String) (cache : Option JsonValue)
    (w : World) : Except PyError Unit × Option JsonValue :=
  match provided_key with
  | none => (.error (.http 403 "Missing access key."), cache)
  | some k =>
      if k.isEmpty then (.error (.http 403 "Missing access key."), cache)
      else
        match load_access_key cache w with
        | (.ok expected, cache1) =>
            if pyStrEq k expected then (.ok (), cache1)
            else (.error (.http 403 "Invalid access key."), cache1)
        | (.error e, cache1) => (.error e, cache1)

/-- A world whose configuration file holds the secret abc at the default
path with the environment variable unset. -/
def wAbc : World :=
  { env := none
    fs := [("access_key.json",
            ReadResult.json (JsonValue.obj [("access_key", JsonValue.str "abc")]))] }

/-- A world whose configuration file at the default path is invalid JSON. -/
def wBadJson : World :=
  { env := none, fs := [("access_key.json", ReadResult.notJson)] }

/-- The world `wBadJson` after the operator fixes the file to hold the
secret x. -/
def wFixed : World :=
  { env := none
    fs := [("access_key.json",
            ReadResult.json (JsonValue.obj [("access_key", JsonValue.str "x")]))] }

/-- A world whose configuration file parses to a JSON list, not an object. -/
def wListConfig : World :=
  { env := none, fs := [("access_key.json", ReadResult.json (JsonValue.arr []))] }

/-- A world whose environment points the path override at keys/a.json while
no file exists anywhere. -/
def wEnvA : World := { env := some "keys/a.json", fs := [] }

/-- A world whose environment points the path override at keys/b.json, a
file holding the secret s, while keys/a.json stays absent. -/
def wEnvB : World :=
  { env := some "keys/b.json"
    fs := [("keys/b.json",
            ReadResult.json (JsonValue.obj [("access_key", JsonValue.str "s")]))] }

/-- A world whose configuration file holds an empty-string access_key. -/
def wEmptyKey : World :=
  { env := none
    fs := [("access_key.json",
            ReadResult.json (JsonValue.obj [("access_key", JsonValue.str "")]))] }

/-- A world whose configuration file holds the non-string access_key 123. -/
def wNumKey : World :=
  { env := none
    fs := [("access_key.json",
            ReadResult.json (JsonValue.obj [("access_key", JsonValue.num 123)]))] }

/-- A world whose resolved path exists but cannot be read as text. -/
def wUnreadable : World :=
  { env := none, fs := [("access_key.json", ReadResult.readFailure "IsADirectoryError")] }

/-- A helper: a Python string compares unequal to every non-string value. -/
theorem pyStrEq_eq_false_of_not_str (k : String) (v : JsonValue)
    (hs : v.isStr = false) : pyStrEq k v = false := by
  cases v <;> simp_all [pyStrEq, JsonValue.isStr]

/-- A helper: the load result when the resolved path does not exist. -/
theorem load_eq_of_absent (w : World)
    (h : w.read (get_access_key_path w.env) = .absent) :
    load_access_key_uncached w
      = .error (.http 500 "Access key file not found on the server.") := by
  simp [load_access_key_uncached, h]

/-- A helper: the load result when reading the file raises. -/
theorem load_eq_of_readFailure (w : World) (exc : String)
    (h : w.read (get_access_key_path w.env) = .readFailure exc) :
    load_access_key_uncached w = .error (.unclassified exc) := by
  simp [load_access_key_uncached, h]

/-- A helper: the load result when the file is not valid JSON. -/
theorem load_eq_of_notJson (w : World)
    (h : w.read (get_access_key_path w.env) = .notJson) :
    load_access_key_uncached w
      = .error (.http 500 "Invalid access key JSON configuration.") := by
  simp [load_access_key_uncached, h]

/-- A helper: the load result when the file parses to a JSON object. -/
theorem load_eq_of_obj (w : World) (kvs : List (String × JsonValue))
    (h : w.read (get_access_key_path w.env) = .json (.obj kvs)) :
    load_access_key_uncached w
      = (if ((kvs.lookup "access_key").getD JsonValue.null).truthy then
            .ok ((kvs.lookup "access_key").getD JsonValue.null)
          else .error (.http 500 "Access key missing in configuration.")) := by
  simp [load_access_key_uncached, h]

/-- A helper: the load result when the file parses to non-object JSON. -/
theorem load_eq_of_json_not_obj (w : World) (v : JsonValue)
    (h : w.read (get_access_key_path w.env) = .json v) (hv : v.isObj = false) :
    load_access_key_uncached w = .error (.unclassified "AttributeError") := by
  cases v <;> simp_all [load_access_key_uncached, JsonValue.isObj]

/-- C1: with a configuration that loads successfully and whose access_key
field is the string s, validating a non-empty provided key succeeds exactly
when the key equals s under case-sensitive string equality, and a mismatch
raises the 403 error with detail Invalid access key; in particular with
secret abc, validating abc succeeds and validating ABC fails 403. -/
theorem validate_exact_string_match (w : World) (s k : String)
    (hk : k.isEmpty = false)
    (hload : load_access_key_uncached w = .ok (JsonValue.str s)) :
    ((validate_access_key (some k) none w).fst = .ok () ↔ k = s) ∧
    (k ≠ s →
      (validate_access_key (some k) none w).fst
        = .error (.http 403 "Invalid access key.")) ∧
    (validate_access_key (some "abc") none wAbc).fst = .ok () ∧
    (validate_access_key (some "ABC") none wAbc).fst
      = .error (.http 403 "Invalid access key.") := by
  refine ⟨?_, ?_, by decide, by decide⟩ <;>
    simp [validate_access_key, load_access_key, hload, hk, pyStrEq] <;>
    by_cases h : k = s <;> simp [h]

/-- C1 witness: at the concrete world with secret abc and provided key abc,
the hypotheses hold and validation succeeds. -/
theorem validate_exact_string_match_witness :
    ("abc".isEmpty = false) ∧
    (load_access_key_uncached wAbc = .ok (JsonValue.str "abc")) ∧
    (validate_access_key (some "abc") none wAbc).fst = .ok () :=
  ⟨by decide, by decide,
    (validate_exact_string_match wAbc "abc" "abc" (by decide) (by decide)).1.mpr rfl⟩

/-- C3: a missing or empty provided key fails with the 403 error with
detail Missing access key, before any load: the outcome and the untouched
cache are the same for every world (missing or invalid configuration file
included); the message differs from the mismatch variant Invalid access
key though both carry status 403, as the mismatch conjunct at a concrete
world shows. -/
theorem validate_missing_key_before_load (w : World) (cache : Option JsonValue) :
    validate_access_key none cache w
      = (.error (.http 403 "Missing access key."), cache) ∧
    validate_access_key (some "") cache w
      = (.error (.http 403 "Missing access key."), cache) ∧
    ("Missing access key." : String) ≠ "Invalid access key." ∧
    (validate_access_key (some "zzz") none wAbc).fst
      = .error (.http 403 "Invalid access key.") := by
  refine ⟨rfl, ?_, by decide, by decide⟩
  have hempty : "".isEmpty = true := by decide
  simp [validate_access_key, hempty]

/-- C7: path resolution is a pure function of the environment value alone
(its argument is only the environment, so it can touch nothing else):
a set, non-empty CHAT_ACCESS_KEY_PATH is returned as the path, and an
unset or empty one yields the default access_key.json. -/
theorem get_access_key_path_resolution (p : String) (hp : p.isEmpty = false) :
    get_access_key_path (some p) = p ∧
    get_access_key_path none = "access_key.json" ∧
    get_access_key_path (some "") = "access_key.json" := by
  refine ⟨?_, rfl, by decide⟩
  simp [get_access_key_path, hp]

/-- C7 witness: a concrete override path is returned unchanged. -/
theorem get_access_key_path_resolution_witness :
    ("/etc/keys.json".isEmpty = false) ∧
    get_access_key_path (some "/etc/keys.json") = "/etc/keys.json" :=
  ⟨by decide, (get_access_key_path_resolution "/etc/keys.json" (by decide)).1⟩

/-- C5: a populated cache is final: every later load returns the cached
value and leaves the cache unchanged, and neither the load nor a validate
call depends on the world any more, so deleting or corrupting the
configuration file after a successful load changes nothing. -/
theorem cached_secret_immutable (v : JsonValue) (w w2 : World) (k : Option String) :
    load_access_key (some v) w = (.ok v, some v) ∧
    load_access_key (some v) w = load_access_key (some v) w2 ∧
    validate_access_key k (some v) w = validate_access_key k (some v) w2 := by
  refine ⟨rfl, rfl, ?_⟩
  cases k with
  | none => rfl
  | some s => simp [validate_access_key, load_access_key]

/-- C4: a failing load is never memoized: it returns its error with the
cache still empty, and any call on an empty cache re-runs the full
resolve/read/parse sequence on the world it sees; concretely, validation
against an invalid-JSON file fails 500 leaving the cache empty, and after
the file is fixed the very next validation with the right key succeeds in
the same process. -/
theorem load_failure_not_memoized (w : World) (e : PyError)
    (h : load_access_key_uncached w = .error e) :
    load_access_key none w = (.error e, none) ∧
    (∀ w2 : World, (load_access_key none w2).fst = load_access_key_uncached w2) ∧
    validate_access_key (some "x") none wBadJson
      = (.error (.http 500 "Invalid access key JSON configuration."), none) ∧
    validate_access_key (some "x") none wFixed
      = (.ok (), some (JsonValue.str "x")) := by
  refine ⟨?_, ?_, by decide, by decide⟩
  · simp [load_access_key, h]
  · intro w2
    cases hh : load_access_key_uncached w2 <;> simp [load_access_key, hh]

/-- C4 witness: at the invalid-JSON world, the load fails, the failure is
not cached, and the fixed world then succeeds. -/
theorem load_failure_not_memoized_witness :
    (load_access_key_uncached wBadJson
      = .error (.http 500 "Invalid access key JSON configuration.")) ∧
    load_access_key none wBadJson
      = (.error (.http 500 "Invalid access key JSON configuration."), none) ∧
    validate_access_key (some "x") none wFixed
      = (.ok (), some (JsonValue.str "x")) :=
  ⟨by decide,
    (load_failure_not_memoized wBadJson
      (.http 500 "Invalid access key JSON configuration.") (by decide)).1,
    (load_failure_not_memoized wBadJson
      (.http 500 "Invalid access key JSON configuration.") (by decide)).2.2.2⟩

/-- C2 counterexample: a configuration file holding a valid JSON list
produces an unclassified AttributeError, which is none of the three
500-status configuration errors and not a returned value, so the load is
not confined to the three stated failure cases. -/
theorem load_list_config_unclassified :
    load_access_key_uncached wListConfig
      = .error (.unclassified "AttributeError") ∧
    load_access_key_uncached wListConfig
      ≠ .error (.http 500 "Access key file not found on the server.") ∧
    load_access_key_uncached wListConfig
      ≠ .error (.http 500 "Invalid access key JSON configuration.") ∧
    load_access_key_uncached wListConfig
      ≠ .error (.http 500 "Access key missing in configuration.") := by
  decide

/-- C2 amended: restricted to file states the loader's branches classify
(absent, unparsable, or parsing to a JSON object — excluding read failures
and non-object JSON, which escape as unclassified exceptions), the load
fails with a 500 configuration error in exactly three cases, each with its
own message — missing file, invalid JSON, and absent-or-falsy access_key
field — and otherwise returns the field's value. -/
theorem load_error_cases (w : World)
    (h : (w.read (get_access_key_path w.env)).covered = true) :
    (load_access_key_uncached w
        = .error (.http 500 "Access key file not found on the server.")
      ↔ w.read (get_access_key_path w.env) = .absent) ∧
    (load_access_key_uncached w
        = .error (.http 500 "Invalid access key JSON configuration.")
      ↔ w.read (get_access_key_path w.env) = .notJson) ∧
    (load_access_key_uncached w
        = .error (.http 500 "Access key missing in configuration.")
      ↔ ∃ kvs, w.read (get_access_key_path w.env) = .json (.obj kvs) ∧
          ((kvs.lookup "access_key").getD JsonValue.null).truthy = false) ∧
    (∀ e, load_access_key_uncached w = .error e →
        e = .http 500 "Access key file not found on the server." ∨
        e = .http 500 "Invalid access key JSON configuration." ∨
        e = .http 500 "Access key missing in configuration.") ∧
    (∀ kvs v, w.read (get_access_key_path w.env) = .json (.obj kvs) →
        kvs.lookup "access_key" = some v → v.truthy = true →
        load_access_key_uncached w = .ok v) := by
  cases hr : w.read (get_access_key_path w.env) with
  | absent =>
      have hl := load_eq_of_absent w hr
      refine ⟨?_, ?_, ?_, ?_, ?_⟩
      · exact iff_of_true hl rfl
      · rw [hl]; constructor
        · intro hx; exact absurd hx (by decide)
        · intro hx; exact ReadResult.noConfusion hx
      · rw [hl]; constructor
        · intro hx; exact absurd hx (by decide)
        · rintro ⟨kvs, hk, -⟩; exact ReadResult.noConfusion hk
      · intro e he
        rw [hl] at he
        injection he with h1
        exact Or.inl h1.symm
      · intro kvs v hkvs
        exact absurd hkvs (by intro hx; exact ReadResult.noConfusion hx)
  | readFailure exc =>
      rw [hr] at h
      simp [ReadResult.covered] at h
  | notJson =>
      have hl := load_eq_of_notJson w hr
      refine ⟨?_, ?_, ?_, ?_, ?_⟩
      · rw [hl]; constructor
        · intro hx; exact absurd hx (by decide)
        · intro hx; exact ReadResult.noConfusion hx
      · exact iff_of_true hl rfl
      · rw [hl]; constructor
        · intro hx; exact absurd hx (by decide)
        · rintro ⟨kvs, hk, -⟩; exact ReadResult.noConfusion hk
      · intro e he
        rw [hl] at he
        injection he with h1
        exact Or.inr (Or.inl h1.symm)
      · intro kvs v hkvs
        exact absurd hkvs (by intro hx; exact ReadResult.noConfusion hx)
  | json data =>
      cases data with
      | obj kvs =>
          have hl := load_eq_of_obj w kvs hr
          cases ht : ((kvs.lookup "access_key").getD JsonValue.null).truthy with
          | true =>
              rw [if_pos ht] at hl
              refine ⟨?_, ?_, ?_, ?_, ?_⟩
              · rw [hl]; constructor
                · intro hx; exact Except.noConfusion hx
                · intro hx; exact ReadResult.noConfusion hx
              · rw [hl]; constructor
                · intro hx; exact Except.noConfusion hx
                · intro hx; exact ReadResult.noConfusion hx
              · rw [hl]; constructor
                · intro hx; exact Except.noConfusion hx
                · rintro ⟨kvs2, hk2, ht2⟩
                  injection hk2 with h1
                  injection h1 with h2
                  subst h2
                  rw [ht2] at ht
                  exact Bool.noConfusion ht
              · intro e he
                rw [hl] at he
                exact Except.noConfusion he
              · intro kvs2 v hkvs2 hlv ht2
                injection hkvs2 with h1
                injection h1 with h2
                subst h2
                rw [hl, hlv]
                rfl
          | false =>
              rw [if_neg (by simp [ht])] at hl
              refine ⟨?_, ?_, ?_, ?_, ?_⟩
              · rw [hl]; constructor
                · intro hx; exact absurd hx (by decide)
                · intro hx; exact ReadResult.noConfusion hx
              · rw [hl]; constructor
                · intro hx; exact absurd hx (by decide)
                · intro hx; exact ReadResult.noConfusion hx
              · rw [hl]; constructor
                · intro hx; exact ⟨kvs, rfl, ht⟩
                · intro hx; rfl
              · intro e he
                rw [hl] at he
                injection he with h1
                exact Or.inr (Or.inr h1.symm)
              · intro kvs2 v hkvs2 hlv ht2
                injection hkvs2 with h1
                injection h1 with h2
                subst h2
                rw [hlv] at ht
                simp [Option.getD] at ht
                rw [ht2] at ht
                exact Bool.noConfusion ht
      | null => rw [hr] at h; simp [ReadResult.covered, JsonValue.isObj] at h
      | bool b => rw [hr] at h; simp [ReadResult.covered, JsonValue.isObj] at h
      | num n => rw [hr] at h; simp [ReadResult.covered, JsonValue.isObj] at h
      | str s => rw [hr] at h; simp [ReadResult.covered, JsonValue.isObj] at h
      | arr xs => rw [hr] at h; simp [ReadResult.covered, JsonValue.isObj] at h

/-- C2 witness: at the world with an empty-string access_key field, the
coverage hypothesis holds and the load fails with the missing-key 500. -/
theorem load_error_cases_witness :
    ((wEmptyKey.read (get_access_key_path wEmptyKey.env)).covered = true) ∧
    load_access_key_uncached wEmptyKey
      = .error (.http 500 "Access key missing in configuration.") :=
  ⟨by decide,
    (load_error_cases wEmptyKey (by decide)).2.2.1.mpr
      ⟨[("access_key", JsonValue.str "")], by decide, by decide⟩⟩

/-- C6 counterexample: the first call resolves the override path keys/a.json
and fails because no file exists; the environment then changes to
keys/b.json, and the retry (the failure was not cached) succeeds by reading
keys/b.json — a path different from the one resolved at the first call,
where nothing exists even in the second world — so a call after a failed
load does not use the path value resolved at the first call. -/
theorem path_resolution_not_frozen :
    get_access_key_path wEnvA.env = "keys/a.json" ∧
    load_access_key none wEnvA
      = (.error (.http 500 "Access key file not found on the server."), none) ∧
    get_access_key_path wEnvB.env = "keys/b.json" ∧
    wEnvB.read "keys/a.json" = .absent ∧
    load_access_key none wEnvB
      = (.ok (JsonValue.str "s"), some (JsonValue.str "s")) ∧
    ("keys/a.json" : String) ≠ "keys/b.json" := by
  decide

/-- C6 amended: the path is re-resolved from the current environment on
every load attempt that misses the cache, so retries after failed loads can
observe a changed CHAT_ACCESS_KEY_PATH; only after the first successful
load does resolution stop: calls on a populated cache never consult the
environment or filesystem, and a cache-missing attempt depends only on the
currently resolved path and the filesystem. -/
theorem path_resolution_per_miss (v : JsonValue) (w w2 w3 w4 : World)
    (hpath : get_access_key_path w3.env = get_access_key_path w4.env)
    (hfs : w3.fs = w4.fs) :
    load_access_key (some v) w = load_access_key (some v) w2 ∧
    (load_access_key none w3).fst = load_access_key_uncached w3 ∧
    load_access_key_uncached w3 = load_access_key_uncached w4 := by
  refine ⟨rfl, ?_, ?_⟩
  · cases hh : load_access_key_uncached w3 <;> simp [load_access_key, hh]
  · simp [load_access_key_uncached, World.read, hfs, hpath]

/-- C6 amended witness: at concrete worlds the hypotheses hold, cached
calls agree across different worlds, and equal resolved path and
filesystem give equal load outcomes. -/
theorem path_resolution_per_miss_witness :
    (get_access_key_path wAbc.env = get_access_key_path wAbc.env) ∧
    (wAbc.fs = wAbc.fs) ∧
    load_access_key (some (JsonValue.str "s")) wEnvA
      = load_access_key (some (JsonValue.str "s")) wEnvB :=
  ⟨rfl, rfl,
    (path_resolution_per_miss (JsonValue.str "s") wEnvA wEnvB wAbc wAbc rfl rfl).1⟩

/-- C8: the loader never checks that the access_key field holds a string:
a configuration object whose field is any truthy non-string value loads
successfully returning that value, after which every validation with a
non-empty string fails 403 Invalid access key, a string never being equal
to a non-string under Python equality. -/
theorem nonstring_secret_loads_and_never_matches (env : Option String)
    (kvs : List (String × JsonValue)) (v : JsonValue) (k : String)
    (hv : kvs.lookup "access_key" = some v) (ht : v.truthy = true)
    (hs : v.isStr = false) (hk : k.isEmpty = false) :
    load_access_key_uncached
        { env := env
          fs := [(get_access_key_path env, ReadResult.json (JsonValue.obj kvs))] }
      = .ok v ∧
    validate_access_key (some k) none
        { env := env
          fs := [(get_access_key_path env, ReadResult.json (JsonValue.obj kvs))] }
      = (.error (.http 403 "Invalid access key."), some v) := by
  have hread : (World.read
      { env := env
        fs := [(get_access_key_path env, ReadResult.json (JsonValue.obj kvs))] }
      (get_access_key_path env)) = ReadResult.json (JsonValue.obj kvs) := by
    simp [World.read, List.lookup]
  have hl := load_eq_of_obj
      { env := env
        fs := [(get_access_key_path env, ReadResult.json (JsonValue.obj kvs))] }
      kvs hread
  rw [hv, Option.getD_some, if_pos ht] at hl
  refine ⟨hl, ?_⟩
  simp [validate_access_key, load_access_key, hk, hl,
    pyStrEq_eq_false_of_not_str k v hs]

/-- C8 witness: with the field holding the number 123, the load succeeds
with 123 and validating the string abc fails 403 Invalid access key. -/
theorem nonstring_secret_loads_and_never_matches_witness :
    ([("access_key", JsonValue.num 123)].lookup "access_key"
      = some (JsonValue.num 123)) ∧
    ((JsonValue.num 123).truthy = true) ∧
    ((JsonValue.num 123).isStr = false) ∧
    ("abc".isEmpty = false) ∧
    validate_access_key (some "abc") none wNumKey
      = (.error (.http 403 "Invalid access key."), some (JsonValue.num 123)) :=
  ⟨by decide, by decide, by decide, by decide,
    (nonstring_secret_loads_and_never_matches none
      [("access_key", JsonValue.num 123)] (JsonValue.num 123) "abc"
      (by decide) (by decide) (by decide) (by decide)).2⟩

/-- C9: a configuration file parsing to valid JSON whose top-level value is
not an object makes the load raise an unclassified AttributeError (the
field lookup on a non-dict), which is neither an HTTPException of any
status — so neither the 500 configuration kind nor the 403 auth kind —
nor a returned value. -/
theorem load_nonobject_json_unclassified (w : World) (v : JsonValue)
    (hread : w.read (get_access_key_path w.env) = ReadResult.json v)
    (hobj : v.isObj = false) :
    load_access_key_uncached w = .error (.unclassified "AttributeError") ∧
    (∀ c d, load_access_key_uncached w ≠ .error (.http c d)) ∧
    (∀ u, load_access_key_uncached w ≠ .ok u) := by
  have hl := load_eq_of_json_not_obj w v hread hobj
  refine ⟨hl, ?_, ?_⟩
  · intro c d hx
    rw [hl] at hx
    injection hx with h1
    exact PyError.noConfusion h1
  · intro u hx
    rw [hl] at hx
    exact Except.noConfusion hx

/-- C9 witness: at the world whose file parses to a JSON list, the
hypotheses hold and the load raises the unclassified AttributeError. -/
theorem load_nonobject_json_unclassified_witness :
    (wListConfig.read (get_access_key_path wListConfig.env)
      = ReadResult.json (JsonValue.arr [])) ∧
    ((JsonValue.arr []).isObj = false) ∧
    load_access_key_uncached wListConfig
      = .error (.unclassified "AttributeError") :=
  ⟨by decide, by decide,
    (load_nonobject_json_unclassified wListConfig (JsonValue.arr [])
      (by decide) (by decide)).1⟩

/-- C10: when the resolved path exists but reading its contents as text
raises (a directory, unreadable permissions, non-UTF-8 bytes), the load
propagates that exception unclassified: the existence branch is passed and
the read is outside every guarded branch, so the result is no
HTTPException of any status. -/
theorem load_read_failure_unclassified (w : World) (exc : String)
    (hread : w.read (get_access_key_path w.env) = ReadResult.readFailure exc) :
    load_access_key_uncached w = .error (.unclassified exc) ∧
    (∀ c d, load_access_key_uncached w ≠ .error (.http c d)) := by
  have hl := load_eq_of_readFailure w exc hread
  refine ⟨hl, ?_⟩
  intro c d hx
  rw [hl] at hx
  injection hx with h1
  exact PyError.noConfusion h1

/-- C10 witness: at a world whose resolved path is a directory, the read
failure escapes as the unclassified IsADirectoryError. -/
theorem load_read_failure_unclassified_witness :
    (wUnreadable.read (get_access_key_path wUnreadable.env)
      = ReadResult.readFailure "IsADirectoryError") ∧
    load_access_key_uncached wUnreadable
      = .error (.unclassified "IsADirectoryError") :=
  ⟨by decide,
    (load_read_failure_unclassified wUnreadable "IsADirectoryError" (by decide)).1⟩
